import Mathlib

/-!
Shallow embedding of the DetectSecure portal server (src/server.js).

Strings are modelled as `List Char`.  The JavaScript operations used by the
server are modelled directly:
  * `String.prototype.trim`      → `jsTrim` (drop ECMAScript whitespace from
                                   both ends),
  * `String.prototype.toUpperCase` (on the ASCII range the server's ids use)
                                   → `jsUpper`,
  * `x || ""` on an optional string field → `Option.getD · []`,
  * truthiness of a string (`s ? … : null`) → emptiness test.

The Supabase client calls are modelled by explicit outcome parameters: each
store call either resolves with data (`StoreMode.ok`), resolves with an
`error` field set (`StoreMode.err`), or throws / rejects
(`StoreMode.raise`).  A thrown call is an exception escaping the statement,
modelled with `Except`.
-/

namespace DetectSecure

/-- ECMAScript whitespace and line-terminator code points removed by
`String.prototype.trim` (TAB, LF, VT, FF, CR, SP, NBSP, Ogham space,
the U+2000 range, LS, PS, NNBSP, MMSP, ideographic space, BOM). -/
def wsCodes : List Nat :=
  [9, 10, 11, 12, 13, 32, 160, 5760,
   8192, 8193, 8194, 8195, 8196, 8197, 8198, 8199, 8200, 8201, 8202,
   8232, 8233, 8239, 8287, 12288, 65279]

/-- Is `c` a JavaScript whitespace character? -/
def isWs (c : Char) : Bool := wsCodes.contains c.toNat

/-- JavaScript `String.prototype.trim`: remove whitespace from both ends. -/
def jsTrim (s : List Char) : List Char := (s.dropWhile isWs).rdropWhile isWs

/-- Uppercase one character, as JavaScript `toUpperCase` acts on the ASCII
range (`a`-`z` map to `A`-`Z`, everything else in the ids is fixed). -/
def upChar (c : Char) : Char :=
  if 97 ≤ c.toNat ∧ c.toNat ≤ 122 then Char.ofNat (c.toNat - 32) else c

/-- JavaScript `String.prototype.toUpperCase` on a string. -/
def jsUpper (s : List Char) : List Char := s.map upChar

/-- The canonical form of an id: `String(x).trim().toUpperCase()`
(src/server.js lines 82 and 191). -/
def canon (s : List Char) : List Char := jsUpper (jsTrim s)

theorem toNat_ofNat_of_valid {n : Nat} (h : n < 55296) :
    (Char.ofNat n).toNat = n := by
  unfold Char.ofNat
  rw [dif_pos (Or.inl h)]
  rfl

theorem upChar_toNat (c : Char) :
    (upChar c).toNat =
      if 97 ≤ c.toNat ∧ c.toNat ≤ 122 then c.toNat - 32 else c.toNat := by
  unfold upChar
  split
  · next h => exact toNat_ofNat_of_valid (by omega)
  · rfl

theorem upChar_eq_self {c : Char} (h : ¬(97 ≤ c.toNat ∧ c.toNat ≤ 122)) :
    upChar c = c := by
  unfold upChar
  rw [if_neg h]

theorem upChar_idem (c : Char) : upChar (upChar c) = upChar c := by
  by_cases h : 97 ≤ c.toNat ∧ c.toNat ≤ 122
  · have ht : (upChar c).toNat = c.toNat - 32 := by rw [upChar_toNat, if_pos h]
    exact upChar_eq_self (by omega)
  · simp only [upChar_eq_self h]

theorem isWs_false_of_mid {c : Char} (h1 : 65 ≤ c.toNat) (h2 : c.toNat ≤ 122) :
    isWs c = false := by
  simp only [isWs, wsCodes, List.contains_cons, List.contains_nil,
    Bool.or_false, Bool.or_eq_false_iff, beq_eq_false_iff_ne, ne_eq]
  omega

theorem isWs_upChar (c : Char) : isWs (upChar c) = isWs c := by
  by_cases h : 97 ≤ c.toNat ∧ c.toNat ≤ 122
  · have ht : (upChar c).toNat = c.toNat - 32 := by rw [upChar_toNat, if_pos h]
    rw [isWs_false_of_mid (by omega) (by omega),
      isWs_false_of_mid (by omega) (by omega)]
  · rw [upChar_eq_self h]

theorem isWs_comp_upChar : isWs ∘ upChar = isWs := by
  funext c
  exact isWs_upChar c

theorem dropWhile_rdropWhile_of (p : Char → Bool) (l : List Char)
    (h : l.dropWhile p = l) :
    (l.rdropWhile p).dropWhile p = l.rdropWhile p := by
  obtain ⟨t, ht⟩ := List.dropWhile_suffix (l := l.reverse) p
  have hdecomp : l.rdropWhile p ++ t.reverse = l := by
    have h2 := congrArg List.reverse ht
    simpa [List.rdropWhile] using h2
  cases hr : l.rdropWhile p with
  | nil => rfl
  | cons a u =>
    have hl : l = a :: (u ++ t.reverse) := by
      rw [← hdecomp, hr]
      rfl
    have hpa : p a = false := by
      rw [hl, List.dropWhile_cons] at h
      by_cases hp : p a = true
      · rw [if_pos hp] at h
        have hlen := congrArg List.length h
        have hle := (List.dropWhile_sublist (l := u ++ t.reverse) p).length_le
        simp only [List.length_cons] at hlen
        omega
      · exact Bool.eq_false_iff.mpr hp
    rw [List.dropWhile_cons, hpa]
    simp

theorem jsTrim_dropWhile (s : List Char) :
    (jsTrim s).dropWhile isWs = jsTrim s :=
  dropWhile_rdropWhile_of isWs (s.dropWhile isWs)
    (List.dropWhile_idempotent isWs s)

theorem jsTrim_idem (s : List Char) : jsTrim (jsTrim s) = jsTrim s := by
  show ((jsTrim s).dropWhile isWs).rdropWhile isWs = jsTrim s
  rw [jsTrim_dropWhile]
  show ((s.dropWhile isWs).rdropWhile isWs).rdropWhile isWs = jsTrim s
  rw [List.rdropWhile_idempotent]
  rfl

theorem rdropWhile_map (f : Char → Char) (p : Char → Bool) (l : List Char) :
    (l.map f).rdropWhile p = (l.rdropWhile (p ∘ f)).map f := by
  simp [List.rdropWhile, ← List.map_reverse, List.dropWhile_map]

theorem jsTrim_jsUpper (s : List Char) :
    jsTrim (jsUpper s) = jsUpper (jsTrim s) := by
  unfold jsTrim jsUpper
  rw [List.dropWhile_map, rdropWhile_map, isWs_comp_upChar]

theorem jsUpper_idem (s : List Char) : jsUpper (jsUpper s) = jsUpper s := by
  unfold jsUpper
  rw [List.map_map]
  have h : upChar ∘ upChar = upChar := funext upChar_idem
  rw [h]

/-- Canonicalization is idempotent. -/
theorem canon_idem (s : List Char) : canon (canon s) = canon s := by
  unfold canon
  rw [jsTrim_jsUpper, jsTrim_idem, jsUpper_idem]

/-- A row of the external `detectors` collection: a registered tag.
The server reads the `id` column (verify) and the `email` column
(owner resolution in the report handler). -/
structure Detector where
  id : List Char
  email : List Char
deriving DecidableEq, Repr

/-- The `detectors` collection of the external store. -/
abbrev DetectorStore := List Detector

/-- Presence of the two credential environment variables.  `SUPABASE_URL`
has a hard-coded non-empty fallback (src/server.js line 30), so only the two
keys decide which clients exist. -/
structure Env where
  hasAnonKey : Bool
  hasServiceRoleKey : Bool
deriving DecidableEq, Repr

/-- Client `supabasePublic` is non-null iff `SUPABASE_URL && SUPABASE_ANON_KEY`
(src/server.js lines 39-43); the URL always holds its fallback value. -/
def hasPublicClient (e : Env) : Bool := e.hasAnonKey

/-- Client `supabaseAdmin` is non-null iff `SUPABASE_URL && SUPABASE_SERVICE_ROLE_KEY`
(src/server.js lines 45-49). -/
def hasAdminClient (e : Env) : Bool := e.hasServiceRoleKey

/-- Behaviour of one call to the external store: it resolves normally,
resolves with its `error` field set (carrying the store's own message), or
throws / rejects with an exception carrying a message. -/
inductive StoreMode where
  | ok
  | err (msg : List Char)
  | raise (msg : List Char)
deriving DecidableEq, Repr

/-- Result shape of an awaited Supabase call: either `data` or an `error`
with a message, as destructured by `const { data, error } = await …`. -/
inductive DbResult (α : Type) where
  | data (a : α)
  | fail (msg : List Char)
deriving DecidableEq, Repr

/-- One detector lookup
`from("detectors").select(…).eq("id", cid).maybeSingle()`:
`data` is the first row whose `id` equals `cid`, or null.  A `raise`
outcome models the call throwing instead of resolving. -/
def detectorLookup (store : DetectorStore) (mode : StoreMode)
    (cid : List Char) : Except (List Char) (DbResult (Option Detector)) :=
  match mode with
  | .raise m => .error m
  | .err m => .ok (.fail m)
  | .ok => .ok (.data (store.find? (fun d => d.id == cid)))

/-- A stored `found_reports` row, as built by the report handler
(src/server.js lines 222-234).  `none` models SQL null. -/
structure FoundReport where
  detectorId : List Char
  finderName : Option (List Char)
  finderEmail : List Char
  message : Option (List Char)
  ownerEmail : Option (List Char)
deriving DecidableEq, Repr

/-- The `found_reports` collection of the external store. -/
abbrev ReportStore := List FoundReport

/-- One insert `from("found_reports").insert([row]).select("*").single()`:
on success it returns the stored row and the collection grown by that row. -/
def reportInsert (reports : ReportStore) (mode : StoreMode)
    (r : FoundReport) :
    Except (List Char) (DbResult (FoundReport × ReportStore)) :=
  match mode with
  | .raise m => .error m
  | .err m => .ok (.fail m)
  | .ok => .ok (.data (r, reports ++ [r]))

/-- Response of `GET /api/verify`: `ok` is the 200 body
`{success:true, registered, id}`; `badRequest`/`serverError` are the
`{success:false, error}` bodies with status 400 and 500. -/
inductive VerifyResult where
  | ok (registered : Bool) (id : List Char)
  | badRequest (msg : List Char)
  | serverError (msg : List Char)
deriving DecidableEq, Repr

/-- HTTP status the verify handler attaches to each response. -/
def verifyStatus : VerifyResult → Nat
  | .ok _ _ => 200
  | .badRequest _ => 400
  | .serverError _ => 500

/-- Response of `POST /api/report`: `ok` carries the inserted row
(`{success:true, inserted}`); the failure shapes carry status 400 / 500. -/
inductive ReportResult where
  | ok (inserted : FoundReport)
  | badRequest (msg : List Char)
  | serverError (msg : List Char)
deriving DecidableEq, Repr

/-- HTTP status the report handler attaches to each response. -/
def reportStatus : ReportResult → Nat
  | .ok _ => 200
  | .badRequest _ => 400
  | .serverError _ => 500

/-- src/server.js line 83. -/
def missingIdMsg : List Char := "Missing id".data

/-- src/server.js line 88. -/
def publicMissingMsg : List Char :=
  "Supabase public client missing on server.".data

/-- src/server.js line 204. -/
def adminMissingMsg : List Char :=
  "Supabase admin client missing (SUPABASE_SERVICE_ROLE_KEY).".data

/-- src/server.js line 197. -/
def missingFieldsMsg : List Char :=
  "Missing required fields (id, finder_email)".data

/-- The `GET /api/verify` handler body (src/server.js lines 81-101).
`rawId` is `req.query.id` (`none` when the parameter is absent).  The
handler has no try/catch, so a store call that throws (`StoreMode.raise`)
escapes as `Except.error`: no response is produced by the handler. -/
def verifyHandler (env : Env) (store : DetectorStore) (mode : StoreMode)
    (rawId : Option (List Char)) : Except (List Char) VerifyResult :=
  let id := canon (rawId.getD [])
  if id.isEmpty then .ok (.badRequest missingIdMsg)
  else if !hasPublicClient env then .ok (.serverError publicMissingMsg)
  else
    match detectorLookup store mode id with
    | .error m => .error m
    | .ok (.fail m) => .ok (.serverError m)
    | .ok (.data row) => .ok (.ok row.isSome id)

/-- The JSON body of `POST /api/report`; each field is `none` when absent. -/
structure ReportInput where
  id : Option (List Char)
  finder_name : Option (List Char)
  finder_email : Option (List Char)
  message : Option (List Char)
deriving DecidableEq, Repr

/-- Expression `x ? String(x).trim() : null` on an optional string field
(src/server.js lines 227 and 229): absent and empty are falsy and give
null, anything else is trimmed. -/
def optField (x : Option (List Char)) : Option (List Char) :=
  match x with
  | none => none
  | some s => if s.isEmpty then none else some (jsTrim s)

/-- Expression `owner?.email || null` (src/server.js line 219): no row, or a row whose
`email` is falsy (the empty string), gives null. -/
def resolvedOwnerEmail (owner : Option Detector) : Option (List Char) :=
  match owner with
  | none => none
  | some d => if d.email.isEmpty then none else some d.email

/-- The statements inside the `try` of the `POST /api/report` handler
(src/server.js lines 188-240).  Returns the response together with the
resulting `found_reports` collection; `Except.error` is an exception
thrown by a store call, before the enclosing catch. -/
def reportBody (env : Env) (store : DetectorStore) (reports : ReportStore)
    (lookupMode insertMode : StoreMode) (input : ReportInput) :
    Except (List Char) (ReportResult × ReportStore) :=
  let cleanId := canon (input.id.getD [])
  let cleanEmail := jsTrim (input.finder_email.getD [])
  if cleanId.isEmpty || cleanEmail.isEmpty then
    .ok (.badRequest missingFieldsMsg, reports)
  else if !hasAdminClient env then
    .ok (.serverError adminMissingMsg, reports)
  else
    match detectorLookup store lookupMode cleanId with
    | .error m => .error m
    | .ok (.fail m) => .ok (.serverError m, reports)
    | .ok (.data owner) =>
      let row : FoundReport :=
        { detectorId := cleanId
          finderName := optField input.finder_name
          finderEmail := cleanEmail
          message := optField input.message
          ownerEmail := resolvedOwnerEmail owner }
      match reportInsert reports insertMode row with
      | .error m => .error m
      | .ok (.fail m) => .ok (.serverError m, reports)
      | .ok (.data (inserted, reports2)) => .ok (.ok inserted, reports2)

/-- The full `POST /api/report` handler: the `try … catch (e)` wrapper
turns any exception into `res.status(500).json({success:false,
error:e.message})` (src/server.js lines 241-243); a thrown store call
leaves the collection as it was. -/
def reportHandler (env : Env) (store : DetectorStore) (reports : ReportStore)
    (lookupMode insertMode : StoreMode) (input : ReportInput) :
    ReportResult × ReportStore :=
  match reportBody env store reports lookupMode insertMode input with
  | .ok r => r
  | .error m => (.serverError m, reports)

deriving instance DecidableEq for Except

/-- The row the report handler hands to the insert call, as a function of
the store and the input (src/server.js lines 224-231). -/
def builtRow (store : DetectorStore) (input : ReportInput) : FoundReport :=
  { detectorId := canon (input.id.getD [])
    finderName := optField input.finder_name
    finderEmail := jsTrim (input.finder_email.getD [])
    message := optField input.message
    ownerEmail := resolvedOwnerEmail
      (store.find? (fun d => d.id == canon (input.id.getD []))) }

theorem reportHandler_happy (env : Env) (store : DetectorStore)
    (reports : ReportStore) (input : ReportInput)
    (hadmin : hasAdminClient env = true)
    (hid : canon (input.id.getD []) ≠ [])
    (hemail : jsTrim (input.finder_email.getD []) ≠ []) :
    reportHandler env store reports .ok .ok input =
      (.ok (builtRow store input), reports ++ [builtRow store input]) := by
  unfold reportHandler reportBody detectorLookup reportInsert builtRow
  rw [if_neg (by simp [List.isEmpty_iff, hid, hemail]),
    if_neg (by simp [hadmin])]

/-- C1: for every submission whose canonical id matches no stored Detector
(valid input, write client configured, store calls resolving cleanly), the
report handler succeeds: the built report is persisted (appended to the
collection) and returned, and its ownerEmail is null.  The NotFound owner
lookup is a business outcome, not an error. -/
theorem submit_unmatched_id (env : Env) (store : DetectorStore)
    (reports : ReportStore) (input : ReportInput)
    (hadmin : hasAdminClient env = true)
    (hid : canon (input.id.getD []) ≠ [])
    (hemail : jsTrim (input.finder_email.getD []) ≠ [])
    (hnomatch : ∀ d ∈ store, d.id ≠ canon (input.id.getD [])) :
    ∃ r, reportHandler env store reports .ok .ok input =
        (.ok r, reports ++ [r]) ∧ r.ownerEmail = none := by
  refine ⟨builtRow store input,
    reportHandler_happy env store reports input hadmin hid hemail, ?_⟩
  have hfind : store.find? (fun d => d.id == canon (input.id.getD [])) = none := by
    rw [List.find?_eq_none]
    intro d hd
    simp only [beq_iff_eq]
    exact hnomatch d hd
  unfold builtRow
  rw [hfind]
  rfl

/-- C1 witness: a concrete unmatched submission on an empty store. -/
theorem submit_unmatched_id_witness :
    ∃ r, reportHandler ⟨true, true⟩ [] []  .ok .ok
        ⟨some "ds-1".data, none, some "a@b.c".data, none⟩ =
        (.ok r, [] ++ [r]) ∧ r.ownerEmail = none :=
  submit_unmatched_id ⟨true, true⟩ [] []
    ⟨some "ds-1".data, none, some "a@b.c".data, none⟩
    (by decide) (by decide) (by decide) (by decide)

/-- C2: when the owner-resolution lookup resolves with its error field set
(an UpstreamError rather than a clean NotFound), the submission is aborted:
the handler responds 500 with the store's own message and no report row is
inserted — the collection is unchanged. -/
theorem submit_lookup_upstream_error (env : Env) (store : DetectorStore)
    (reports : ReportStore) (insertMode : StoreMode) (input : ReportInput)
    (m : List Char)
    (hadmin : hasAdminClient env = true)
    (hid : canon (input.id.getD []) ≠ [])
    (hemail : jsTrim (input.finder_email.getD []) ≠ []) :
    reportHandler env store reports (.err m) insertMode input =
      (.serverError m, reports) ∧
    reportStatus (.serverError m) = 500 := by
  refine ⟨?_, rfl⟩
  unfold reportHandler reportBody detectorLookup
  rw [if_neg (by simp [List.isEmpty_iff, hid, hemail]),
    if_neg (by simp [hadmin])]

/-- C2 witness: a concrete erroring lookup aborts a valid submission. -/
theorem submit_lookup_upstream_error_witness :
    reportHandler ⟨true, true⟩ [] [] (.err "db down".data) .ok
        ⟨some "DS-1".data, none, some "a@b.c".data, none⟩ =
      (.serverError "db down".data, []) ∧
    reportStatus (.serverError "db down".data) = 500 :=
  submit_lookup_upstream_error ⟨true, true⟩ [] [] .ok
    ⟨some "DS-1".data, none, some "a@b.c".data, none⟩ "db down".data
    (by decide) (by decide) (by decide)

/-- C3: verify canonicalizes the raw id (trim then uppercase); an empty
canonical id is rejected with a 400 validation error; otherwise, with the
read client configured and the store call resolving cleanly, it answers
registered together with the canonical id, and registered is true exactly
when some stored Detector has that canonical id. -/
theorem verify_spec (env : Env) (store : DetectorStore) (raw : List Char)
    (hread : hasPublicClient env = true) :
    (canon raw = [] →
      verifyHandler env store .ok (some raw) =
        .ok (.badRequest missingIdMsg) ∧
      verifyStatus (.badRequest missingIdMsg) = 400) ∧
    (canon raw ≠ [] →
      verifyHandler env store .ok (some raw) =
        .ok (.ok ((store.find? (fun d => d.id == canon raw)).isSome)
          (canon raw)) ∧
      (((store.find? (fun d => d.id == canon raw)).isSome = true) ↔
        ∃ d ∈ store, d.id = canon raw)) := by
  constructor
  · intro h
    refine ⟨?_, rfl⟩
    unfold verifyHandler
    simp only [Option.getD_some]
    rw [if_pos (by simp [List.isEmpty_iff, h])]
  · intro h
    refine ⟨?_, ?_⟩
    · unfold verifyHandler detectorLookup
      simp only [Option.getD_some]
      rw [if_neg (by simp [List.isEmpty_iff, h]),
        if_neg (by simp [hread])]
    · simp [List.find?_isSome, beq_iff_eq]

/-- C3 witness: a registered id, checked against a one-row store. -/
theorem verify_spec_witness :
    (canon " ds-1 ".data = [] →
      verifyHandler ⟨true, true⟩ [⟨"DS-1".data, "o@w.x".data⟩] .ok
          (some " ds-1 ".data) =
        .ok (.badRequest missingIdMsg) ∧
      verifyStatus (.badRequest missingIdMsg) = 400) ∧
    (canon " ds-1 ".data ≠ [] →
      verifyHandler ⟨true, true⟩ [⟨"DS-1".data, "o@w.x".data⟩] .ok
          (some " ds-1 ".data) =
        .ok (.ok (([⟨"DS-1".data, "o@w.x".data⟩] : DetectorStore).find?
            (fun d => d.id == canon " ds-1 ".data)).isSome
          (canon " ds-1 ".data)) ∧
      ((([⟨"DS-1".data, "o@w.x".data⟩] : DetectorStore).find?
            (fun d => d.id == canon " ds-1 ".data)).isSome = true ↔
        ∃ d ∈ ([⟨"DS-1".data, "o@w.x".data⟩] : DetectorStore),
          d.id = canon " ds-1 ".data)) :=
  verify_spec ⟨true, true⟩ [⟨"DS-1".data, "o@w.x".data⟩] " ds-1 ".data
    (by decide)

/-- C4: canonicalization is idempotent, and consequently verify is case-
and surrounding-whitespace-insensitive: verifying a raw id and verifying
its canonical form give identical results, for every configuration, store
and store-call behaviour. -/
theorem canon_idem_verify_insensitive (x : List Char) (env : Env)
    (store : DetectorStore) (mode : StoreMode) (raw : List Char) :
    canon (canon x) = canon x ∧
    verifyHandler env store mode (some raw) =
      verifyHandler env store mode (some (canon raw)) := by
  refine ⟨canon_idem x, ?_⟩
  unfold verifyHandler
  simp only [Option.getD_some, canon_idem]

/-- C5 counterexample: with write credentials absent, an input that fails
validation (empty id and finder_email) is rejected with the 400 validation
message, not with the configuration error the claim requires for every
input. -/
theorem submit_no_write_creds_cex :
    (reportHandler ⟨true, false⟩ [] [] .ok .ok ⟨none, none, none, none⟩).1 =
      .badRequest missingFieldsMsg ∧
    (reportHandler ⟨true, false⟩ [] [] .ok .ok ⟨none, none, none, none⟩).1 ≠
      .serverError adminMissingMsg ∧
    reportStatus
      (reportHandler ⟨true, false⟩ [] [] .ok .ok ⟨none, none, none, none⟩).1 =
      400 := by
  decide

/-- C5 amended: when write credentials are absent the report handler never
succeeds and never stores a record, for any input; it fails with the
configuration error for every input that passes validation, while an input
with an empty canonical id or empty trimmed finder_email fails with the
validation error instead. -/
theorem submit_no_write_creds (env : Env) (store : DetectorStore)
    (reports : ReportStore) (lookupMode insertMode : StoreMode)
    (input : ReportInput)
    (hw : hasAdminClient env = false) :
    (reportHandler env store reports lookupMode insertMode input).2 =
      reports ∧
    (∀ r, (reportHandler env store reports lookupMode insertMode input).1 ≠
      .ok r) ∧
    (canon (input.id.getD []) ≠ [] → jsTrim (input.finder_email.getD []) ≠ [] →
      reportHandler env store reports lookupMode insertMode input =
        (.serverError adminMissingMsg, reports)) := by
  unfold reportHandler reportBody
  by_cases h1 : ((canon (input.id.getD [])).isEmpty ||
      (jsTrim (input.finder_email.getD [])).isEmpty) = true
  · rw [if_pos h1]
    refine ⟨rfl, fun r => by simp, fun hid hemail => ?_⟩
    exact absurd h1 (by simp [List.isEmpty_iff, hid, hemail])
  · rw [if_neg h1, if_pos (by simp [hw])]
    exact ⟨rfl, fun r => by simp, fun _ _ => rfl⟩

/-- C5 witness: with write credentials absent, a concrete valid input gets
the configuration error and nothing is stored. -/
theorem submit_no_write_creds_witness :
    (reportHandler ⟨true, false⟩ [] [] .ok .ok
        ⟨some "DS-1".data, none, some "a@b.c".data, none⟩).2 = [] ∧
    (∀ r, (reportHandler ⟨true, false⟩ [] [] .ok .ok
        ⟨some "DS-1".data, none, some "a@b.c".data, none⟩).1 ≠ .ok r) ∧
    (canon ((some "DS-1".data).getD []) ≠ [] →
      jsTrim ((some "a@b.c".data).getD []) ≠ [] →
      reportHandler ⟨true, false⟩ [] [] .ok .ok
          ⟨some "DS-1".data, none, some "a@b.c".data, none⟩ =
        (.serverError adminMissingMsg, [])) :=
  submit_no_write_creds ⟨true, false⟩ [] [] .ok .ok
    ⟨some "DS-1".data, none, some "a@b.c".data, none⟩ (by decide)

/-- C6 counterexample: a Detector stored with the empty string as email is
matched, yet the persisted ownerEmail is null rather than that stored
(empty) email — `owner?.email || null` coalesces the falsy empty string. -/
theorem submit_matched_owner_cex :
    (reportHandler ⟨true, true⟩ [⟨"DS-1".data, []⟩] [] .ok .ok
        ⟨some "DS-1".data, none, some "a@b.c".data, none⟩).1 =
      .ok ⟨"DS-1".data, none, "a@b.c".data, none, none⟩ ∧
    (none : Option (List Char)) ≠ some [] := by
  decide

/-- C6 amended: a submission whose canonical id matches a stored Detector
persists ownerEmail equal to that Detector's email at lookup time whenever
that email is non-empty; a matched Detector whose stored email is the empty
string is recorded with ownerEmail null. -/
theorem submit_matched_owner_email (env : Env) (store : DetectorStore)
    (reports : ReportStore) (input : ReportInput) (d : Detector)
    (hadmin : hasAdminClient env = true)
    (hid : canon (input.id.getD []) ≠ [])
    (hemail : jsTrim (input.finder_email.getD []) ≠ [])
    (hfind : store.find? (fun x => x.id == canon (input.id.getD [])) =
      some d) :
    ∃ r, reportHandler env store reports .ok .ok input =
        (.ok r, reports ++ [r]) ∧
      (d.email ≠ [] → r.ownerEmail = some d.email) ∧
      (d.email = [] → r.ownerEmail = none) := by
  refine ⟨builtRow store input,
    reportHandler_happy env store reports input hadmin hid hemail, ?_, ?_⟩
  · intro hne
    unfold builtRow
    rw [hfind]
    simp [resolvedOwnerEmail, List.isEmpty_iff, hne]
  · intro he
    unfold builtRow
    rw [hfind]
    simp [resolvedOwnerEmail, List.isEmpty_iff, he]

/-- C6 witness: a concrete matched submission snapshots the owner's
non-empty email. -/
theorem submit_matched_owner_email_witness :
    ∃ r, reportHandler ⟨true, true⟩ [⟨"DS-1".data, "o@w.x".data⟩] [] .ok .ok
        ⟨some " ds-1 ".data, none, some "a@b.c".data, none⟩ =
        (.ok r, [] ++ [r]) ∧
      (("o@w.x".data : List Char) ≠ [] → r.ownerEmail = some "o@w.x".data) ∧
      (("o@w.x".data : List Char) = [] → r.ownerEmail = none) :=
  submit_matched_owner_email ⟨true, true⟩ [⟨"DS-1".data, "o@w.x".data⟩] []
    ⟨some " ds-1 ".data, none, some "a@b.c".data, none⟩
    ⟨"DS-1".data, "o@w.x".data⟩
    (by decide) (by decide) (by decide) (by decide)

/-- C7 counterexample: a whitespace-only finder_name is truthy, so it is
trimmed and stored as the empty string — not as null — contradicting the
claim that these optional fields are never stored as the empty string. -/
theorem submit_optional_fields_cex :
    (reportHandler ⟨true, true⟩ [] [] .ok .ok
        ⟨some "DS-1".data, some " ".data, some "a@b.c".data, none⟩).1 =
      .ok ⟨"DS-1".data, some [], "a@b.c".data, none, none⟩ ∧
    (some ([] : List Char)) ≠ (none : Option (List Char)) := by
  decide

/-- C7 amended: in a persisted report, finderName and message are stored
as null when the submitted field is absent or the empty string; a present
non-empty field is stored trimmed, so a whitespace-only value is stored as
the empty string. -/
theorem submit_optional_fields (env : Env) (store : DetectorStore)
    (reports : ReportStore) (input : ReportInput)
    (hadmin : hasAdminClient env = true)
    (hid : canon (input.id.getD []) ≠ [])
    (hemail : jsTrim (input.finder_email.getD []) ≠ []) :
    ∃ r, reportHandler env store reports .ok .ok input =
        (.ok r, reports ++ [r]) ∧
      (input.finder_name = none → r.finderName = none) ∧
      (input.finder_name = some [] → r.finderName = none) ∧
      (∀ s, input.finder_name = some s → s ≠ [] →
        r.finderName = some (jsTrim s)) ∧
      (input.message = none → r.message = none) ∧
      (input.message = some [] → r.message = none) ∧
      (∀ s, input.message = some s → s ≠ [] →
        r.message = some (jsTrim s)) := by
  refine ⟨builtRow store input,
    reportHandler_happy env store reports input hadmin hid hemail,
    ?_, ?_, ?_, ?_, ?_, ?_⟩
  · intro h
    simp [builtRow, optField, h]
  · intro h
    simp [builtRow, optField, h]
  · intro s h1 h2
    simp [builtRow, optField, h1, List.isEmpty_iff, h2]
  · intro h
    simp [builtRow, optField, h]
  · intro h
    simp [builtRow, optField, h]
  · intro s h1 h2
    simp [builtRow, optField, h1, List.isEmpty_iff, h2]

/-- C7 witness: concrete absent message and non-empty name. -/
theorem submit_optional_fields_witness :
    ∃ r, reportHandler ⟨true, true⟩ [] [] .ok .ok
        ⟨some "DS-1".data, some " Ann ".data, some "a@b.c".data, none⟩ =
        (.ok r, [] ++ [r]) ∧
      ((⟨some "DS-1".data, some " Ann ".data, some "a@b.c".data, none⟩ :
          ReportInput).finder_name = none → r.finderName = none) ∧
      ((⟨some "DS-1".data, some " Ann ".data, some "a@b.c".data, none⟩ :
          ReportInput).finder_name = some [] → r.finderName = none) ∧
      (∀ s, (⟨some "DS-1".data, some " Ann ".data, some "a@b.c".data, none⟩ :
          ReportInput).finder_name = some s → s ≠ [] →
        r.finderName = some (jsTrim s)) ∧
      ((⟨some "DS-1".data, some " Ann ".data, some "a@b.c".data, none⟩ :
          ReportInput).message = none → r.message = none) ∧
      ((⟨some "DS-1".data, some " Ann ".data, some "a@b.c".data, none⟩ :
          ReportInput).message = some [] → r.message = none) ∧
      (∀ s, (⟨some "DS-1".data, some " Ann ".data, some "a@b.c".data, none⟩ :
          ReportInput).message = some s → s ≠ [] →
        r.message = some (jsTrim s)) :=
  submit_optional_fields ⟨true, true⟩ [] []
    ⟨some "DS-1".data, some " Ann ".data, some "a@b.c".data, none⟩
    (by decide) (by decide) (by decide)

/-- C8: an input whose canonical id is empty or whose trimmed finder_email
is empty is rejected with the 400 validation error, regardless of the other
fields, the configuration and the store — in particular an empty
finder_email fails even with a valid id. -/
theorem submit_validation (env : Env) (store : DetectorStore)
    (reports : ReportStore) (lookupMode insertMode : StoreMode)
    (input : ReportInput)
    (h : canon (input.id.getD []) = [] ∨
      jsTrim (input.finder_email.getD []) = []) :
    reportHandler env store reports lookupMode insertMode input =
      (.badRequest missingFieldsMsg, reports) ∧
    reportStatus (.badRequest missingFieldsMsg) = 400 := by
  refine ⟨?_, rfl⟩
  unfold reportHandler reportBody
  rw [if_pos (by rcases h with h | h <;> simp [List.isEmpty_iff, h])]

/-- C8 witness: a valid id with an empty finder_email is rejected. -/
theorem submit_validation_witness :
    reportHandler ⟨true, true⟩ [] [] .ok .ok
        ⟨some "DS-1".data, none, some "".data, none⟩ =
      (.badRequest missingFieldsMsg, []) ∧
    reportStatus (.badRequest missingFieldsMsg) = 400 :=
  submit_validation ⟨true, true⟩ [] [] .ok .ok
    ⟨some "DS-1".data, none, some "".data, none⟩ (Or.inr (by decide))

/-- C9 counterexample: the verify handler has no try/catch, so a store call
that throws escapes the handler as an uncaught exception — the caller does
not receive a 500 response carrying the message (the process-level
uncaughtException/unhandledRejection listeners only log). -/
theorem verify_uncaught_exception_cex :
    verifyHandler ⟨true, true⟩ [] (.raise "boom".data) (some "DS-1".data) =
      .error "boom".data ∧
    (Except.error "boom".data :
        Except (List Char) VerifyResult) ≠
      .ok (.serverError "boom".data) := by
  decide

/-- C9 amended: an exception thrown at either store call inside the report
handler is caught by its try/catch and reported as a 500 response carrying
the exception's message, with the collection unchanged; the verify handler
has no such wrapper and an exception there escapes uncaught. -/
theorem report_catches_thrown (env : Env) (store : DetectorStore)
    (reports : ReportStore) (input : ReportInput) (m : List Char)
    (hadmin : hasAdminClient env = true)
    (hid : canon (input.id.getD []) ≠ [])
    (hemail : jsTrim (input.finder_email.getD []) ≠ []) :
    reportHandler env store reports (.raise m) .ok input =
      (.serverError m, reports) ∧
    reportHandler env store reports .ok (.raise m) input =
      (.serverError m, reports) ∧
    reportStatus (.serverError m) = 500 := by
  refine ⟨?_, ?_, rfl⟩ <;>
  · unfold reportHandler reportBody detectorLookup reportInsert
    rw [if_neg (by simp [List.isEmpty_iff, hid, hemail]),
      if_neg (by simp [hadmin])]

/-- C9 witness: concrete thrown store calls inside the report handler. -/
theorem report_catches_thrown_witness :
    reportHandler ⟨true, true⟩ [] [] (.raise "boom".data) .ok
        ⟨some "DS-1".data, none, some "a@b.c".data, none⟩ =
      (.serverError "boom".data, []) ∧
    reportHandler ⟨true, true⟩ [] [] .ok (.raise "boom".data)
        ⟨some "DS-1".data, none, some "a@b.c".data, none⟩ =
      (.serverError "boom".data, []) ∧
    reportStatus (.serverError "boom".data) = 500 :=
  report_catches_thrown ⟨true, true⟩ [] []
    ⟨some "DS-1".data, none, some "a@b.c".data, none⟩ "boom".data
    (by decide) (by decide) (by decide)

/-- C10: the verify response never depends on the stored email column —
two detector stores with the same set of ids and arbitrarily different
emails give identical verify results for every input, configuration and
store-call behaviour. -/
theorem verify_email_independent (env : Env) (s1 s2 : DetectorStore)
    (mode : StoreMode) (rawId : Option (List Char))
    (hids : ∀ i : List Char, (∃ d ∈ s1, d.id = i) ↔ (∃ d ∈ s2, d.id = i)) :
    verifyHandler env s1 mode rawId = verifyHandler env s2 mode rawId := by
  unfold verifyHandler
  cases mode with
  | raise m => rfl
  | err m => rfl
  | ok =>
    have h : (s1.find? (fun d => d.id == canon (rawId.getD []))).isSome =
        (s2.find? (fun d => d.id == canon (rawId.getD []))).isSome := by
      rw [Bool.eq_iff_iff]
      simp only [List.find?_isSome, beq_iff_eq]
      exact hids (canon (rawId.getD []))
    simp only [detectorLookup]
    rw [h]

/-- C10 witness: two one-row stores with equal ids and different emails. -/
theorem verify_email_independent_witness :
    verifyHandler ⟨true, true⟩ [⟨"A".data, "x@y.z".data⟩] .ok
        (some " a ".data) =
      verifyHandler ⟨true, true⟩ [⟨"A".data, "q@r.s".data⟩] .ok
        (some " a ".data) :=
  verify_email_independent ⟨true, true⟩ [⟨"A".data, "x@y.z".data⟩]
    [⟨"A".data, "q@r.s".data⟩] .ok (some " a ".data)
    (by
      intro i
      constructor
      · rintro ⟨d, hd, hdi⟩
        rw [List.mem_singleton] at hd
        subst hd
        exact ⟨⟨"A".data, "q@r.s".data⟩, List.mem_singleton_self _, hdi⟩
      · rintro ⟨d, hd, hdi⟩
        rw [List.mem_singleton] at hd
        subst hd
        exact ⟨⟨"A".data, "x@y.z".data⟩, List.mem_singleton_self _, hdi⟩)

end DetectSecure
